import Mathlib

/-!
Verification of the MemFS permission-aware in-memory file system.

The development shallowly embeds the TypeScript sources:
  * `src/Permissions/permissions.ts` — the `Permissions` record and its
    `userHasPermission` decision procedure;
  * `src/Permissions/userManager.ts` — the `User` value type and
    `UserManager.createUser`;
  * the `FileSystem` class (`Node`, `getDefaultPermissions`, and the tree
    operations `changeDirectory`, `makeDirectory`, `listDirectory`,
    `removeDirectory`, `createFile`, `writeFile`, `readFile`, `moveFile`,
    `find`).

Modelling conventions:
  * JS `Set<Permission>` becomes a `List Perm` queried by `List.contains`.
  * JS `Map<string, Node>` (insertion-ordered, unique keys) becomes an
    ordered association list `List (String × Node)`; `Map.get`/`has`/
    `delete`/`set` are `childGet`/`childHas`/`childDelete`/`childSet`.
  * The mutable node graph with parent pointers becomes a zipper: the
    state holds the current-working-directory node (`cur`) together with
    the stack of ancestor contexts (`ctx`); `parent` traversal is zipping
    up, and the root is the full recomposition `rebuild`.
  * `this.cwd.parent!` at the root evaluates to `null` at runtime (the
    TypeScript `!` assertion performs no check); a state whose cwd holds
    that null value is flagged by `atNull := true`.  A subsequent member
    access on the null cwd raises a `TypeError` at runtime, modelled by
    the error string `nullCwdError`.
  * Each operation returns `Except String α × FS`: the thrown-`Error`
    message (or the result) together with the post state.  Errors carry
    the exact message strings of the source.
  * Every operation takes the identity-provider snapshot
    (`UserManager.getCurrentUser`) as an explicit `Option User` argument.
-/

namespace MemFS

/-- `enum Permission` from permissions.ts. -/
inductive Perm where
  | read
  | write
  | execute
deriving DecidableEq, Repr

/-- `PermissionSet = Set<Permission>`, modelled as a list queried by membership. -/
abbrev PermissionSet := List Perm

/-- `class User` from userManager.ts: id, display name, optional group id. -/
structure User where
  id : String
  name : String
  groupId : Option String
deriving DecidableEq, Repr

/-- `class Permissions` from permissions.ts. -/
structure Permissions where
  owningUserId : String
  owningGroupId : String
  ownerPerms : PermissionSet
  groupPerms : PermissionSet
  everyonePerms : PermissionSet
deriving DecidableEq, Repr

/-- `Permissions.userHasPermission` from permissions.ts:
`user?.id === owningUserId` is true iff a user is present and its id equals
`owningUserId` (an absent user yields `undefined`, never equal to a string);
likewise `user?.groupId === owningGroupId` needs a present user whose
(optional) group id is that string. -/
def Permissions.userHasPermission (p : Permissions) (perm : Perm)
    (user : Option User) : Bool :=
  if user.map User.id = some p.owningUserId then
    p.ownerPerms.contains perm
  else if user.bind User.groupId = some p.owningGroupId then
    p.groupPerms.contains perm
  else
    p.everyonePerms.contains perm

/-- `UserManager.createUser` from userManager.ts (the generated uuid is the
`userId` parameter): `new User(userId, name, groupId ?? userId)`. -/
def createUser (userId name : String) (groupId : Option String) : User :=
  ⟨userId, name, some (groupId.getD userId)⟩

/-- `enum NodeType` from the FileSystem source. -/
inductive NodeType where
  | file
  | directory
deriving DecidableEq, Repr

/-- `class Node` of the FileSystem: name, kind, content, ordered children map,
permissions.  The parent pointer is represented by the zipper context of the
state, not stored in the node. -/
inductive Node where
  | mk (name : String) (nodeType : NodeType) (content : String)
      (children : List (String × Node)) (permissions : Permissions)

def Node.name : Node → String
  | .mk n _ _ _ _ => n

def Node.nodeType : Node → NodeType
  | .mk _ t _ _ _ => t

def Node.content : Node → String
  | .mk _ _ c _ _ => c

def Node.children : Node → List (String × Node)
  | .mk _ _ _ cs _ => cs

def Node.permissions : Node → Permissions
  | .mk _ _ _ _ p => p

/-- `node.content = content` (in-place overwrite). -/
def Node.setContent : Node → String → Node
  | .mk n t _ cs p, c => .mk n t c cs p

/-- `node.name = newName` (the rename step of `moveFile`). -/
def Node.setName : Node → String → Node
  | .mk _ t c cs p, n => .mk n t c cs p

/-- Replace the children map of a node. -/
def Node.setChildren : Node → List (String × Node) → Node
  | .mk n t c _ p, cs => .mk n t c cs p

/-- `Map.get(k)`: first entry with key `k`. -/
def childGet : List (String × Node) → String → Option Node
  | [], _ => none
  | (k2, n) :: rest, k => if k2 = k then some n else childGet rest k

/-- `Map.has(k)`. -/
def childHas (cs : List (String × Node)) (k : String) : Bool :=
  (childGet cs k).isSome

/-- `Map.delete(k)`: remove the entry with key `k` (keys are unique in a JS
map, so removing every occurrence agrees with removing the one entry). -/
def childDelete : List (String × Node) → String → List (String × Node)
  | [], _ => []
  | (k2, n) :: rest, k =>
    if k2 = k then childDelete rest k else (k2, n) :: childDelete rest k

/-- `Map.set(k, v)`: replace in place if the key is present, else append
(JS maps keep the original position on overwrite and append new keys). -/
def childSet : List (String × Node) → String → Node → List (String × Node)
  | [], k, v => [(k, v)]
  | (k2, n) :: rest, k, v =>
    if k2 = k then (k, v) :: rest else (k2, n) :: childSet rest k v

/-- Split the children map at the first entry with key `k`, returning the
entries before, the node, and the entries after. -/
def splitChildren : List (String × Node) → String →
    Option (List (String × Node) × Node × List (String × Node))
  | [], _ => none
  | (k2, n) :: rest, k =>
    if k2 = k then some ([], n, rest)
    else
      match splitChildren rest k with
      | some (b, m, a) => some ((k2, n) :: b, m, a)
      | none => none

/-- One ancestor frame of the zipper: the parent node's own fields together
with the siblings before and after the hole, and the key under which the
hole's node is stored in the parent's children map. -/
structure Ctx where
  key : String
  name : String
  nodeType : NodeType
  content : String
  permissions : Permissions
  before : List (String × Node)
  after : List (String × Node)

/-- Recompose a parent node by putting `child` back into the hole. -/
def Ctx.fill (c : Ctx) (child : Node) : Node :=
  .mk c.name c.nodeType c.content (c.before ++ (c.key, child) :: c.after)
    c.permissions

/-- Recompose the root node from a context stack (innermost frame first). -/
def rebuild : List Ctx → Node → Node
  | [], n => n
  | c :: rest, n => rebuild rest (c.fill n)

/-- The `FileSystem` state: the cwd node `cur`, its ancestor stack `ctx`
(so `root = rebuild ctx cur`), and `atNull`, true when the runtime value of
`this.cwd` is `null` (only produced by `changeDirectory("..")` at the root). -/
structure FS where
  ctx : List Ctx
  cur : Node
  atNull : Bool

/-- The permissions the `FileSystem` constructor gives the root node. -/
def rootPermissions : Permissions :=
  ⟨"1", "1", [.read, .write, .execute], [.read, .write, .execute],
    [.read, .write, .execute]⟩

/-- `new FileSystem()`: root is an empty directory named `""`, cwd = root. -/
def FS.mkFS : FS :=
  ⟨[], .mk "" .directory "" [] rootPermissions, false⟩

/-- The message of the runtime `TypeError` raised by any member access on a
null cwd (models, e.g., `null.children`). -/
def nullCwdError : String := "TypeError: Cannot read properties of null"

/-- `getDefaultPermissions()`: `user?.id ?? ""`, `user?.groupId ?? ""`, full
sets for owner and group, empty for everyone. -/
def getDefaultPermissions (u : Option User) : Permissions :=
  ⟨(u.map User.id).getD "", (u.bind User.groupId).getD "",
    [.read, .write, .execute], [.read, .write, .execute], []⟩

/-- `getNodeByName(name)`: `"/"` → root, `".."` → `cwd.parent!` (null at the
root — the `!` assertion does not throw), otherwise a lookup in
`cwd.children` that throws "File or directory not found" when absent.
Returns the resolved node, `none` standing for the null parent. -/
def FS.getNodeByName (name : String) (s : FS) : Except String (Option Node) :=
  if name = "/" then
    .ok (some (rebuild s.ctx s.cur))
  else if s.atNull then
    .error nullCwdError
  else if name = ".." then
    .ok (match s.ctx with
      | [] => none
      | c :: _ => some (c.fill s.cur))
  else
    match childGet s.cur.children name with
    | some n => .ok (some n)
    | none => .error "File or directory not found"

/-- `changeDirectory(dir)`: `this.cwd = await this.getNodeByName(dir)`.
The zipper moves to the position of the resolved node: `"/"` zips to the
root, `".."` zips up one frame (or records the null cwd when already at the
root), a child name zips down into that child.  No permission check and no
check that the target is a directory. -/
def FS.changeDirectory (_u : Option User) (dir : String) (s : FS) :
    Except String Unit × FS :=
  if dir = "/" then
    (.ok (), ⟨[], rebuild s.ctx s.cur, false⟩)
  else if s.atNull then
    (.error nullCwdError, s)
  else if dir = ".." then
    match s.ctx with
    | [] => (.ok (), ⟨[], s.cur, true⟩)
    | c :: rest => (.ok (), ⟨rest, c.fill s.cur, false⟩)
  else
    match splitChildren s.cur.children dir with
    | some (b, n, a) =>
      (.ok (), ⟨⟨dir, s.cur.name, s.cur.nodeType, s.cur.content,
        s.cur.permissions, b, a⟩ :: s.ctx, n, false⟩)
    | none => (.error "File or directory not found", s)

/-- `makeDirectory(name)`: assert Write on cwd, throw "Directory already
exists" when the name is taken, else insert a fresh directory node with the
default permissions of the current user. -/
def FS.makeDirectory (u : Option User) (name : String) (s : FS) :
    Except String Unit × FS :=
  if s.atNull then (.error nullCwdError, s)
  else if ¬ s.cur.permissions.userHasPermission .write u then
    (.error "Permission denied", s)
  else if childHas s.cur.children name then
    (.error "Directory already exists", s)
  else
    (.ok (), ⟨s.ctx, s.cur.setChildren (childSet s.cur.children name
      (.mk name .directory "" [] (getDefaultPermissions u))), s.atNull⟩)

/-- `listDirectory()`: assert Read on cwd, return the child names in
insertion order (`[...children.keys()]`). -/
def FS.listDirectory (u : Option User) (s : FS) :
    Except String (List String) × FS :=
  if s.atNull then (.error nullCwdError, s)
  else if ¬ s.cur.permissions.userHasPermission .read u then
    (.error "Permission denied", s)
  else
    (.ok (s.cur.children.map Prod.fst), s)

/-- `removeDirectory(name)`: assert Write on cwd; delete the child when
`children.get(name)?.isDirectory()`, else throw.  No emptiness check. -/
def FS.removeDirectory (u : Option User) (name : String) (s : FS) :
    Except String Unit × FS :=
  if s.atNull then (.error nullCwdError, s)
  else if ¬ s.cur.permissions.userHasPermission .write u then
    (.error "Permission denied", s)
  else
    match childGet s.cur.children name with
    | some n =>
      if n.nodeType = .directory then
        (.ok (), ⟨s.ctx, s.cur.setChildren (childDelete s.cur.children name),
          s.atNull⟩)
      else (.error "Directory not found or not a directory", s)
    | none => (.error "Directory not found or not a directory", s)

/-- `createFile(name)`: assert Write on cwd, throw "File already exists" when
the name is taken, else insert a fresh file node with the default
permissions of the current user. -/
def FS.createFile (u : Option User) (name : String) (s : FS) :
    Except String Unit × FS :=
  if s.atNull then (.error nullCwdError, s)
  else if ¬ s.cur.permissions.userHasPermission .write u then
    (.error "Permission denied", s)
  else if childHas s.cur.children name then
    (.error "File already exists", s)
  else
    (.ok (), ⟨s.ctx, s.cur.setChildren (childSet s.cur.children name
      (.mk name .file "" [] (getDefaultPermissions u))), s.atNull⟩)

/-- `writeFile(name, content)`: look the node up (throw "File not found"),
assert Write on the node, throw when it is not a file, else overwrite its
content in place. -/
def FS.writeFile (u : Option User) (name content : String) (s : FS) :
    Except String Unit × FS :=
  if s.atNull then (.error nullCwdError, s)
  else
    match childGet s.cur.children name with
    | none => (.error "File not found", s)
    | some node =>
      if ¬ node.permissions.userHasPermission .write u then
        (.error "Permission denied", s)
      else if ¬ node.nodeType = .file then
        (.error "Cannot write to this location because it's not a file", s)
      else
        (.ok (), ⟨s.ctx, s.cur.setChildren (childSet s.cur.children name
          (node.setContent content)), s.atNull⟩)

/-- `readFile(name)`: look the node up (throw "File not found"), assert Read
on the node, throw when it is not a file, else return its content. -/
def FS.readFile (u : Option User) (name : String) (s : FS) :
    Except String String × FS :=
  if s.atNull then (.error nullCwdError, s)
  else
    match childGet s.cur.children name with
    | none => (.error "File not found", s)
    | some node =>
      if ¬ node.permissions.userHasPermission .read u then
        (.error "Permission denied", s)
      else if ¬ node.nodeType = .file then
        (.error "Cannot read this location because it's not a file", s)
      else
        (.ok node.content, s)

/-- `moveFile(oldName, newName)`: assert Write on cwd, look up the node
(throw when absent), assert Write on the node, throw when the new name is
taken, else delete the old entry, rename the node and reinsert it. -/
def FS.moveFile (u : Option User) (oldName newName : String) (s : FS) :
    Except String Unit × FS :=
  if s.atNull then (.error nullCwdError, s)
  else if ¬ s.cur.permissions.userHasPermission .write u then
    (.error "Permission denied", s)
  else
    match childGet s.cur.children oldName with
    | none =>
      (.error ("File \"" ++ oldName ++ "\" does not exist."), s)
    | some fileNode =>
      if ¬ fileNode.permissions.userHasPermission .write u then
        (.error "Permission denied", s)
      else if childHas s.cur.children newName then
        (.error ("A node with the name \"" ++ newName ++ "\" already exists."),
          s)
      else
        (.ok (), ⟨s.ctx, s.cur.setChildren (childSet
          (childDelete s.cur.children oldName) newName
          (fileNode.setName newName)), s.atNull⟩)

/-- `find(name)`: a one-element array when the name is a child of cwd, the
empty array otherwise.  No permission check. -/
def FS.find (_u : Option User) (name : String) (s : FS) :
    Except String (List Node) × FS :=
  if s.atNull then (.error nullCwdError, s)
  else
    match childGet s.cur.children name with
    | some n => (.ok [n], s)
    | none => (.ok [], s)

/-! ### Association-list lemmas (`Map.get` / `set` / `delete` interaction) -/

theorem childGet_childSet_self (cs : List (String × Node)) (k : String)
    (v : Node) : childGet (childSet cs k v) k = some v := by
  induction cs with
  | nil => simp [childSet, childGet]
  | cons e rest ih =>
    obtain ⟨k2, n⟩ := e
    by_cases h : k2 = k
    · simp [childSet, h, childGet]
    · simp [childSet, h, childGet, ih]

theorem childGet_childSet_ne (cs : List (String × Node)) (k k2 : String)
    (v : Node) (h : k2 ≠ k) :
    childGet (childSet cs k v) k2 = childGet cs k2 := by
  induction cs with
  | nil => simp [childSet, childGet, Ne.symm h]
  | cons e rest ih =>
    obtain ⟨k3, n⟩ := e
    by_cases h3 : k3 = k
    · subst h3
      simp [childSet, childGet, Ne.symm h]
    · simp [childSet, h3, childGet, ih]

theorem childHas_childSet_self (cs : List (String × Node)) (k : String)
    (v : Node) : childHas (childSet cs k v) k = true := by
  simp [childHas, childGet_childSet_self]

theorem childGet_childDelete_self (cs : List (String × Node)) (k : String) :
    childGet (childDelete cs k) k = none := by
  induction cs with
  | nil => simp [childDelete, childGet]
  | cons e rest ih =>
    obtain ⟨k2, n⟩ := e
    by_cases h : k2 = k <;> simp [childDelete, h, childGet, ih]

theorem not_mem_keys_of_childGet_none (cs : List (String × Node)) (k : String) :
    childGet cs k = none → k ∉ cs.map Prod.fst := by
  induction cs with
  | nil => intro _; simp
  | cons e rest ih =>
    obtain ⟨k2, n⟩ := e
    intro h
    by_cases hk : k2 = k
    · simp [childGet, hk] at h
    · simp only [childGet, hk, if_false] at h
      simp only [List.map_cons, List.mem_cons]
      rintro (h2 | h2)
      · exact hk h2.symm
      · exact ih h h2

theorem not_mem_keys_childDelete (cs : List (String × Node)) (k : String) :
    k ∉ (childDelete cs k).map Prod.fst :=
  not_mem_keys_of_childGet_none (childDelete cs k) k
    (childGet_childDelete_self cs k)

theorem splitChildren_of_childGet (cs : List (String × Node)) (k : String)
    (n : Node) (h : childGet cs k = some n) :
    ∃ b a, splitChildren cs k = some (b, n, a) := by
  induction cs with
  | nil => simp [childGet] at h
  | cons e rest ih =>
    obtain ⟨k2, m⟩ := e
    by_cases hk : k2 = k
    · refine ⟨[], rest, ?_⟩
      simp [childGet, hk] at h
      simp [splitChildren, hk, h]
    · simp only [childGet, hk, if_false] at h
      obtain ⟨b, a, hs⟩ := ih h
      exact ⟨(k2, m) :: b, a, by simp [splitChildren, hk, hs]⟩

/-! ### Node accessor lemmas -/

@[simp] theorem Node.name_mk (n : String) (t : NodeType) (c : String)
    (cs : List (String × Node)) (p : Permissions) :
    (Node.mk n t c cs p).name = n := rfl

@[simp] theorem Node.nodeType_mk (n : String) (t : NodeType) (c : String)
    (cs : List (String × Node)) (p : Permissions) :
    (Node.mk n t c cs p).nodeType = t := rfl

@[simp] theorem Node.content_mk (n : String) (t : NodeType) (c : String)
    (cs : List (String × Node)) (p : Permissions) :
    (Node.mk n t c cs p).content = c := rfl

@[simp] theorem Node.children_mk (n : String) (t : NodeType) (c : String)
    (cs : List (String × Node)) (p : Permissions) :
    (Node.mk n t c cs p).children = cs := rfl

@[simp] theorem Node.permissions_mk (n : String) (t : NodeType) (c : String)
    (cs : List (String × Node)) (p : Permissions) :
    (Node.mk n t c cs p).permissions = p := rfl

@[simp] theorem Node.children_setChildren (nd : Node)
    (cs : List (String × Node)) : (nd.setChildren cs).children = cs := by
  cases nd
  rfl

@[simp] theorem Node.permissions_setChildren (nd : Node)
    (cs : List (String × Node)) :
    (nd.setChildren cs).permissions = nd.permissions := by
  cases nd
  rfl

@[simp] theorem Node.name_setName (nd : Node) (x : String) :
    (nd.setName x).name = x := by
  cases nd
  rfl

@[simp] theorem Node.nodeType_setName (nd : Node) (x : String) :
    (nd.setName x).nodeType = nd.nodeType := by
  cases nd
  rfl

@[simp] theorem Node.permissions_setName (nd : Node) (x : String) :
    (nd.setName x).permissions = nd.permissions := by
  cases nd
  rfl

@[simp] theorem Node.content_setContent (nd : Node) (c : String) :
    (nd.setContent c).content = c := by
  cases nd
  rfl

@[simp] theorem Node.nodeType_setContent (nd : Node) (c : String) :
    (nd.setContent c).nodeType = nd.nodeType := by
  cases nd
  rfl

@[simp] theorem Node.permissions_setContent (nd : Node) (c : String) :
    (nd.setContent c).permissions = nd.permissions := by
  cases nd
  rfl

/-! ### Default-permission lemmas -/

theorem defaultPerms_owner_grants (x : User) (perm : Perm) :
    (getDefaultPermissions (some x)).userHasPermission perm (some x) = true := by
  cases perm <;> simp [getDefaultPermissions, Permissions.userHasPermission]

theorem defaultPerms_anonymous_denies (perm : Perm) :
    (getDefaultPermissions none).userHasPermission perm none = false := by
  simp [getDefaultPermissions, Permissions.userHasPermission]

/-! ### Claims -/

/-- C1: `userHasPermission` evaluates the tiers in strict order owner, then
group, then everyone, first match winning: a present identity whose id
equals `owningUserId` gets membership in `ownerPerms` (even when its group
also matches); otherwise a present identity whose group id equals
`owningGroupId` gets membership in `groupPerms`; otherwise — including when
no identity is supplied — the result is membership in `everyonePerms`. -/
theorem userHasPermission_tier_order (p : Permissions) (perm : Perm)
    (user : Option User) :
    (∀ u, user = some u → u.id = p.owningUserId →
        p.userHasPermission perm user = p.ownerPerms.contains perm)
    ∧ (∀ u, user = some u → u.id ≠ p.owningUserId →
        u.groupId = some p.owningGroupId →
        p.userHasPermission perm user = p.groupPerms.contains perm)
    ∧ ((∀ u, user = some u →
          u.id ≠ p.owningUserId ∧ u.groupId ≠ some p.owningGroupId) →
        p.userHasPermission perm user = p.everyonePerms.contains perm) := by
  refine ⟨?_, ?_, ?_⟩
  · rintro u rfl h
    simp [Permissions.userHasPermission, h]
  · rintro u rfl h hg
    simp [Permissions.userHasPermission, h, hg]
  · intro h
    cases user with
    | none => simp [Permissions.userHasPermission]
    | some u =>
      obtain ⟨h1, h2⟩ := h u rfl
      simp [Permissions.userHasPermission, h1, h2]

/-- Witness for C1 at a concrete input: an owner whose group also equals the
owning group is judged by the owner tier (here: empty, so Read is denied
even though the group tier would grant it). -/
theorem userHasPermission_tier_order_witness :
    Permissions.userHasPermission ⟨"1", "100", [], [.read], [.read]⟩ .read
      (some ⟨"1", "Alice", some "100"⟩) = List.contains [] Perm.read :=
  (userHasPermission_tier_order ⟨"1", "100", [], [.read], [.read]⟩ .read
      (some ⟨"1", "Alice", some "100"⟩)).1 ⟨"1", "Alice", some "100"⟩ rfl rfl

/-- C2 (code evidence): on a fresh file system, whose cwd is the root,
`changeDirectory("..")` does NOT fail: `getNodeByName("..")` returns
`this.cwd.parent!`, which is `null` at the root (the TypeScript non-null
assertion performs no runtime check), and `changeDirectory` assigns it, so
the call reports success and leaves the cwd null instead of throwing
NotFound with the cwd unchanged. -/
theorem changeDirectory_root_parent_null :
    FS.changeDirectory none ".." FS.mkFS =
      (Except.ok (),
        ⟨[], Node.mk "" .directory "" [] rootPermissions, true⟩) := rfl

/-- C3 (code evidence): `changeDirectory` never checks that the resolved
node is a directory: after creating file "a" in the root, `changeDirectory
("a")` succeeds and the cwd becomes that File node, violating the
cwd-is-always-a-Directory invariant the claim states. -/
theorem changeDirectory_into_file_unchecked :
    (FS.changeDirectory none "a"
        (FS.createFile (some ⟨"1", "t", some "1"⟩) "a" FS.mkFS).2).1
      = Except.ok ()
    ∧ (FS.changeDirectory none "a"
        (FS.createFile (some ⟨"1", "t", some "1"⟩) "a" FS.mkFS).2).2.cur.nodeType
      = NodeType.file := ⟨rfl, rfl⟩

theorem defaultPerms_createUser (uid uname : String) (gid : Option String) :
    getDefaultPermissions (some (createUser uid uname gid)) =
      ⟨uid, gid.getD uid, [.read, .write, .execute], [.read, .write, .execute],
        []⟩ := by
  simp [getDefaultPermissions, createUser]

/-- C4: a node created by a successful `makeDirectory` or `createFile` call
gets permissions computed from the identity active at the moment of
creation (an identity issued by `UserManager.createUser`): owner = that
identity's id, owning group = its group id — which `createUser` set to the
requested group or to the user's own id when absent — and exactly
Read/Write/Execute for owner and group, nothing for everyone. -/
theorem created_node_default_permissions (uid uname name : String)
    (gid : Option String) (s s2 : FS)
    (h : FS.createFile (some (createUser uid uname gid)) name s
          = (.ok (), s2)
        ∨ FS.makeDirectory (some (createUser uid uname gid)) name s
          = (.ok (), s2)) :
    ∃ n, childGet s2.cur.children name = some n
      ∧ n.permissions = ⟨uid, gid.getD uid, [.read, .write, .execute],
          [.read, .write, .execute], []⟩ := by
  rcases h with h | h
  · unfold FS.createFile at h
    split_ifs at h <;> simp_all
    obtain ⟨-, rfl⟩ := h
    refine ⟨Node.mk name NodeType.file ""
      [] (getDefaultPermissions (some (createUser uid uname gid))), ?_, ?_⟩
    · simp [childGet_childSet_self]
    · simp [defaultPerms_createUser]
  · unfold FS.makeDirectory at h
    split_ifs at h <;> simp_all
    obtain ⟨-, rfl⟩ := h
    refine ⟨Node.mk name NodeType.directory ""
      [] (getDefaultPermissions (some (createUser uid uname gid))), ?_, ?_⟩
    · simp [childGet_childSet_self]
    · simp [defaultPerms_createUser]

/-- Witness for C4: a user created with no group id is its own group owner;
the file it creates carries exactly the default permission triad. -/
theorem created_node_default_permissions_witness :
    ∃ n, childGet ((FS.createFile (some (createUser "7" "A" none)) "a"
        FS.mkFS).2).cur.children "a" = some n
      ∧ n.permissions = ⟨"7", "7", [.read, .write, .execute],
          [.read, .write, .execute], []⟩ :=
  created_node_default_permissions "7" "A" "a" none FS.mkFS _ (Or.inl rfl)

/-! ### Atomicity-on-failure lemmas, one per operation -/

theorem changeDirectory_atomic (u : Option User) (a : String) (s : FS)
    (e : String) (h : (FS.changeDirectory u a s).1 = .error e) :
    (FS.changeDirectory u a s).2 = s := by
  unfold FS.changeDirectory at h ⊢
  split_ifs at h ⊢ <;> try simp_all
  · cases hc : s.ctx <;> simp_all
  · cases hc : splitChildren s.cur.children a <;> simp_all

theorem makeDirectory_atomic (u : Option User) (a : String) (s : FS)
    (e : String) (h : (FS.makeDirectory u a s).1 = .error e) :
    (FS.makeDirectory u a s).2 = s := by
  unfold FS.makeDirectory at h ⊢
  split_ifs at h ⊢ <;> simp_all

theorem createFile_atomic (u : Option User) (a : String) (s : FS)
    (e : String) (h : (FS.createFile u a s).1 = .error e) :
    (FS.createFile u a s).2 = s := by
  unfold FS.createFile at h ⊢
  split_ifs at h ⊢ <;> simp_all

theorem removeDirectory_atomic (u : Option User) (a : String) (s : FS)
    (e : String) (h : (FS.removeDirectory u a s).1 = .error e) :
    (FS.removeDirectory u a s).2 = s := by
  unfold FS.removeDirectory at h ⊢
  split_ifs at h ⊢ <;> try simp_all
  all_goals cases hc : childGet s.cur.children a <;> simp_all <;>
    split_ifs at h ⊢ <;> simp_all

theorem writeFile_atomic (u : Option User) (a c : String) (s : FS)
    (e : String) (h : (FS.writeFile u a c s).1 = .error e) :
    (FS.writeFile u a c s).2 = s := by
  unfold FS.writeFile at h ⊢
  split_ifs at h ⊢ <;> try simp_all
  all_goals cases hc : childGet s.cur.children a <;> simp_all <;>
    split_ifs at h ⊢ <;> simp_all

theorem readFile_atomic (u : Option User) (a : String) (s : FS)
    (e : String) (h : (FS.readFile u a s).1 = .error e) :
    (FS.readFile u a s).2 = s := by
  unfold FS.readFile at h ⊢
  split_ifs at h ⊢ <;> try simp_all
  all_goals cases hc : childGet s.cur.children a <;> simp_all <;>
    split_ifs at h ⊢ <;> simp_all

theorem moveFile_atomic (u : Option User) (a b : String) (s : FS)
    (e : String) (h : (FS.moveFile u a b s).1 = .error e) :
    (FS.moveFile u a b s).2 = s := by
  unfold FS.moveFile at h ⊢
  split_ifs at h ⊢ <;> try simp_all
  all_goals cases hc : childGet s.cur.children a <;> simp_all <;>
    split_ifs at h ⊢ <;> simp_all

/-- C5: every FileSystem operation is atomic on failure — whenever a call
returns any error, the post state (root, cwd and every node, i.e. the whole
zipper state) is exactly the input state; partial mutations never occur. -/
theorem fs_ops_atomic_on_failure (u : Option User) (s : FS)
    (a b c : String) :
    (∀ e, (FS.changeDirectory u a s).1 = .error e →
      (FS.changeDirectory u a s).2 = s)
    ∧ (∀ e, (FS.makeDirectory u a s).1 = .error e →
      (FS.makeDirectory u a s).2 = s)
    ∧ (∀ e, (FS.createFile u a s).1 = .error e →
      (FS.createFile u a s).2 = s)
    ∧ (∀ e, (FS.removeDirectory u a s).1 = .error e →
      (FS.removeDirectory u a s).2 = s)
    ∧ (∀ e, (FS.writeFile u a c s).1 = .error e →
      (FS.writeFile u a c s).2 = s)
    ∧ (∀ e, (FS.readFile u a s).1 = .error e →
      (FS.readFile u a s).2 = s)
    ∧ (∀ e, (FS.moveFile u a b s).1 = .error e →
      (FS.moveFile u a b s).2 = s) :=
  ⟨fun e h => changeDirectory_atomic u a s e h,
    fun e h => makeDirectory_atomic u a s e h,
    fun e h => createFile_atomic u a s e h,
    fun e h => removeDirectory_atomic u a s e h,
    fun e h => writeFile_atomic u a c s e h,
    fun e h => readFile_atomic u a s e h,
    fun e h => moveFile_atomic u a b s e h⟩

/-- Witness for C5: changing into a non-existent directory fails and leaves
a fresh file system untouched. -/
theorem fs_ops_atomic_on_failure_witness :
    (FS.changeDirectory none "zzz" FS.mkFS).2 = FS.mkFS :=
  (fs_ops_atomic_on_failure none FS.mkFS "zzz" "b" "c").1
    "File or directory not found" rfl

/-! ### Success-inversion lemmas -/

theorem createFile_ok_state (u : Option User) (name : String) (s s1 : FS)
    (h : FS.createFile u name s = (.ok (), s1)) :
    s.atNull = false
    ∧ s.cur.permissions.userHasPermission .write u = true
    ∧ childHas s.cur.children name = false
    ∧ s1 = ⟨s.ctx, s.cur.setChildren (childSet s.cur.children name
        (.mk name .file "" [] (getDefaultPermissions u))), s.atNull⟩ := by
  unfold FS.createFile at h
  split_ifs at h <;> simp_all

theorem makeDirectory_ok_state (u : Option User) (name : String) (s s1 : FS)
    (h : FS.makeDirectory u name s = (.ok (), s1)) :
    s.atNull = false
    ∧ s.cur.permissions.userHasPermission .write u = true
    ∧ childHas s.cur.children name = false
    ∧ s1 = ⟨s.ctx, s.cur.setChildren (childSet s.cur.children name
        (.mk name .directory "" [] (getDefaultPermissions u))), s.atNull⟩ := by
  unfold FS.makeDirectory at h
  split_ifs at h <;> simp_all

/-- C6: for every tree state and identity under which the calls succeed,
`createFile(a)` then `writeFile(a, X)` then `readFile(a)` yields exactly
`X` (the write replaces the content in place, the read returns it
verbatim), for every name and every content string. -/
theorem create_write_read_roundtrip (u : Option User) (name content : String)
    (s s1 s2 : FS)
    (h1 : FS.createFile u name s = (.ok (), s1))
    (h2 : FS.writeFile u name content s1 = (.ok (), s2)) :
    FS.readFile u name s2 = (.ok content, s2) := by
  obtain ⟨hnull, -, -, rfl⟩ := createFile_ok_state u name s s1 h1
  cases u with
  | none =>
    exfalso
    unfold FS.writeFile at h2
    simp [hnull, childGet_childSet_self, defaultPerms_anonymous_denies] at h2
  | some x =>
    unfold FS.writeFile at h2
    simp [hnull, childGet_childSet_self, defaultPerms_owner_grants] at h2
    obtain rfl := h2.symm
    unfold FS.readFile
    simp [hnull, childGet_childSet_self, defaultPerms_owner_grants,
      Node.setContent]

/-- Witness for C6 at a concrete run: create, write, read back. -/
theorem create_write_read_roundtrip_witness :
    FS.readFile (some (createUser "7" "A" none)) "a"
      (FS.writeFile (some (createUser "7" "A" none)) "a" "X"
        (FS.createFile (some (createUser "7" "A" none)) "a" FS.mkFS).2).2
      = (.ok "X",
        (FS.writeFile (some (createUser "7" "A" none)) "a" "X"
          (FS.createFile (some (createUser "7" "A" none)) "a" FS.mkFS).2).2) :=
  create_write_read_roundtrip (some (createUser "7" "A" none)) "a" "X"
    FS.mkFS _ _ rfl rfl

/-- C7: with Write on the cwd, `removeDirectory` succeeds on any existing
child directory — no emptiness check, the subtree is discarded — and a
subsequent successful `listDirectory` on the parent no longer lists the
name; it fails with the source's single error unless the named child exists
and is a Directory. -/
theorem removeDirectory_spec (u : Option User) (name : String) (s : FS)
    (hnull : s.atNull = false)
    (hw : s.cur.permissions.userHasPermission .write u = true) :
    (∀ n, childGet s.cur.children name = some n →
        n.nodeType = NodeType.directory →
        (FS.removeDirectory u name s).1 = .ok ()
        ∧ ∀ u2 l,
            (FS.listDirectory u2 (FS.removeDirectory u name s).2).1 = .ok l →
            name ∉ l)
    ∧ ((∀ n, childGet s.cur.children name = some n →
          n.nodeType = NodeType.file) →
        (FS.removeDirectory u name s).1
          = .error "Directory not found or not a directory") := by
  constructor
  · intro n hn hdir
    have hred : FS.removeDirectory u name s
        = (.ok (), ⟨s.ctx, s.cur.setChildren (childDelete s.cur.children name),
            s.atNull⟩) := by
      unfold FS.removeDirectory
      simp [hnull, hw, hn, hdir]
    refine ⟨by rw [hred], ?_⟩
    intro u2 l hl
    rw [hred] at hl
    unfold FS.listDirectory at hl
    rw [if_neg (by simp [hnull])] at hl
    by_cases hr : (s.cur.setChildren
        (childDelete s.cur.children name)).permissions.userHasPermission
        Perm.read u2 = true
    · rw [if_neg (not_not_intro hr)] at hl
      simp only [Node.children_setChildren] at hl
      simp at hl
      subst hl
      exact not_mem_keys_childDelete s.cur.children name
    · rw [if_pos hr] at hl
      simp at hl
  · intro hfile
    unfold FS.removeDirectory
    cases hc : childGet s.cur.children name with
    | none => simp [hnull, hw, hc]
    | some n => simp [hnull, hw, hc, hfile n hc]

/-- Witness for C7 at a concrete input: removing a non-empty child directory
succeeds. -/
theorem removeDirectory_spec_witness :
    (FS.removeDirectory none "d"
      ⟨[], Node.mk "" .directory ""
        [("d", Node.mk "d" .directory ""
          [("x", Node.mk "x" .file "" [] rootPermissions)] rootPermissions)]
        rootPermissions, false⟩).1 = Except.ok () :=
  ((removeDirectory_spec none "d"
      ⟨[], Node.mk "" .directory ""
        [("d", Node.mk "d" .directory ""
          [("x", Node.mk "x" .file "" [] rootPermissions)] rootPermissions)]
        rootPermissions, false⟩ rfl rfl).1
    (Node.mk "d" .directory ""
      [("x", Node.mk "x" .file "" [] rootPermissions)] rootPermissions)
    rfl rfl).1

theorem moveFile_ok_state (u : Option User) (a b : String) (s s2 : FS)
    (h : FS.moveFile u a b s = (.ok (), s2)) :
    ∃ fileNode, childGet s.cur.children a = some fileNode
      ∧ childHas s.cur.children b = false
      ∧ s.atNull = false
      ∧ s2 = ⟨s.ctx, s.cur.setChildren (childSet
          (childDelete s.cur.children a) b (fileNode.setName b)),
          s.atNull⟩ := by
  unfold FS.moveFile at h
  by_cases h1 : s.atNull = true
  · simp [h1] at h
  · rw [if_neg h1] at h
    by_cases h2 : s.cur.permissions.userHasPermission Perm.write u = true
    · rw [if_neg (not_not_intro h2)] at h
      cases hc : childGet s.cur.children a with
      | none => simp only [hc] at h; simp at h
      | some fileNode =>
        simp only [hc] at h
        by_cases h3 : fileNode.permissions.userHasPermission Perm.write u
          = true
        · rw [if_neg (not_not_intro h3)] at h
          by_cases h4 : childHas s.cur.children b = true
          · rw [if_pos h4] at h
            simp at h
          · rw [if_neg h4] at h
            simp only [Prod.mk.injEq] at h
            exact ⟨fileNode, rfl, by simpa using h4, by simpa using h1,
              h.2.symm⟩
        · rw [if_pos h3] at h
          simp at h
    · rw [if_pos h2] at h
      simp at h

/-- C8: after a successful `moveFile(a, b)`, `find(b)` returns exactly one
node and its name is `b`, while `find(a)` returns the empty sequence; and in
general `find` on any (non-null-cwd) state returns the one-element sequence
containing the child when the name is present among the cwd's children, the
empty sequence otherwise. -/
theorem moveFile_find_spec (u : Option User) (a b : String) (s s2 : FS)
    (h : FS.moveFile u a b s = (.ok (), s2)) :
    (∃ n, FS.find u b s2 = (.ok [n], s2) ∧ n.name = b)
    ∧ FS.find u a s2 = (.ok [], s2)
    ∧ ∀ (t : FS) (nm : String), t.atNull = false →
        (FS.find u nm t).1
          = .ok ((childGet t.cur.children nm).elim [] (fun n => [n])) := by
  obtain ⟨fileNode, hget, hbfree, hnull, rfl⟩ := moveFile_ok_state u a b s s2 h
  have hab : a ≠ b := by
    intro hh
    subst hh
    simp [childHas, hget] at hbfree
  refine ⟨⟨fileNode.setName b, ?_, by simp⟩, ?_, ?_⟩
  · unfold FS.find
    simp [hnull, childGet_childSet_self]
  · unfold FS.find
    simp [hnull, childGet_childSet_ne _ _ _ _ hab,
      childGet_childDelete_self]
  · intro t nm htn
    unfold FS.find
    cases hc : childGet t.cur.children nm <;> simp [htn, hc]

/-- Witness for C8 at a concrete run: move "a" to "b", then `find("a")` is
empty. -/
theorem moveFile_find_spec_witness :
    FS.find (some (createUser "7" "A" none)) "a"
      (FS.moveFile (some (createUser "7" "A" none)) "a" "b"
        (FS.createFile (some (createUser "7" "A" none)) "a" FS.mkFS).2).2
    = (.ok [],
      (FS.moveFile (some (createUser "7" "A" none)) "a" "b"
        (FS.createFile (some (createUser "7" "A" none)) "a" FS.mkFS).2).2) :=
  (moveFile_find_spec (some (createUser "7" "A" none)) "a" "b"
    (FS.createFile (some (createUser "7" "A" none)) "a" FS.mkFS).2 _
    rfl).2.1

/-- C9: when a `createFile` (resp. `makeDirectory`) succeeds, repeating it
with the same name under the same identity fails with the AlreadyExists
error; and in general, once the Write check on the cwd passes, both
operations fail with their AlreadyExists error whenever the name is already
present among the cwd's children, regardless of the existing child's
kind. -/
theorem create_twice_already_exists (u : Option User) (name : String)
    (s : FS) :
    (∀ s1, FS.createFile u name s = (.ok (), s1) →
        (FS.createFile u name s1).1 = .error "File already exists")
    ∧ (∀ s1, FS.makeDirectory u name s = (.ok (), s1) →
        (FS.makeDirectory u name s1).1 = .error "Directory already exists")
    ∧ (s.atNull = false →
        s.cur.permissions.userHasPermission .write u = true →
        childHas s.cur.children name = true →
        (FS.createFile u name s).1 = .error "File already exists"
        ∧ (FS.makeDirectory u name s).1
            = .error "Directory already exists") := by
  refine ⟨?_, ?_, ?_⟩
  · intro s1 h
    obtain ⟨hnull, hw, -, rfl⟩ := createFile_ok_state u name s s1 h
    unfold FS.createFile
    simp [hnull, hw, childHas_childSet_self]
  · intro s1 h
    obtain ⟨hnull, hw, -, rfl⟩ := makeDirectory_ok_state u name s s1 h
    unfold FS.makeDirectory
    simp [hnull, hw, childHas_childSet_self]
  · intro hnull hw hhas
    constructor
    · unfold FS.createFile
      simp [hnull, hw, hhas]
    · unfold FS.makeDirectory
      simp [hnull, hw, hhas]

/-- Witness for C9 at a concrete run: the second `createFile("a")` fails
with "File already exists". -/
theorem create_twice_already_exists_witness :
    (FS.createFile (some (createUser "7" "A" none)) "a"
      (FS.createFile (some (createUser "7" "A" none)) "a" FS.mkFS).2).1
    = .error "File already exists" :=
  (create_twice_already_exists (some (createUser "7" "A" none)) "a"
    FS.mkFS).1 _ rfl

/-- C10: `changeDirectory` performs no permission check: its outcome and
resulting state are identical under any two identities (including none), it
never fails with PermissionDenied, and it succeeds whenever `getNodeByName`
resolution succeeds — entering a directory requires neither Read, Write nor
Execute on it. -/
theorem changeDirectory_no_permission_check (s : FS) (dir : String) :
    (∀ u1 u2 : Option User,
        FS.changeDirectory u1 dir s = FS.changeDirectory u2 dir s)
    ∧ (∀ (u : Option User) v, FS.getNodeByName dir s = .ok v →
        (FS.changeDirectory u dir s).1 = .ok ())
    ∧ (∀ u : Option User,
        (FS.changeDirectory u dir s).1 ≠ .error "Permission denied") := by
  refine ⟨fun u1 u2 => rfl, ?_, ?_⟩
  · intro u v h
    unfold FS.getNodeByName at h
    unfold FS.changeDirectory
    split_ifs at h ⊢ <;> try simp_all
    · cases hc : s.ctx <;> simp
    · cases hcg : childGet s.cur.children dir with
      | none => simp [hcg] at h
      | some n =>
        obtain ⟨bb, aa, hs⟩ := splitChildren_of_childGet _ _ _ hcg
        simp [hs]
  · intro u
    unfold FS.changeDirectory
    split_ifs with h1 h2 h3
    · simp
    · simp [nullCwdError]
    · cases hc : s.ctx <;> simp
    · cases hsp : splitChildren s.cur.children dir with
      | none => simp
      | some t => simp

/-- Witness for C10 at a concrete resolution: `changeDirectory("/")` on a
fresh file system succeeds. -/
theorem changeDirectory_no_permission_check_witness :
    (FS.changeDirectory none "/" FS.mkFS).1 = Except.ok () :=
  (changeDirectory_no_permission_check FS.mkFS "/").2.1 none
    (some (Node.mk "" .directory "" [] rootPermissions)) rfl

end MemFS
